import Mathlib

/-!
Verification of the JWT token issuance / verification / revocation core of
the NexusX backend (`src/core/jwt.py`, `src/domains/auth/services.py`).

Shallow embedding conventions:
* UUIDs (user ids and refresh-token ids `jti`) are modelled as `Nat`.
* Time is modelled as integer seconds since epoch (`Int`), passed explicitly
  as `now` where the Python code calls `datetime.now(UTC)`.
* The Redis store is a `Store` with two partitions, mirroring the two
  reserved key prefixes of `JWTService` (`jwt:version:<uid>` and
  `jwt:refresh:<jti>`):
    - `versions` : per-user token-version counter (`GET` / `INCR`);
      an absent key reads as 0, `INCR` of an absent key yields 1.
    - `records`  : active-refresh records (`SETEX` / `EXISTS` / `DELETE`);
      each record keeps the stored value (the user id) and the absolute
      expiry instant derived from the `SETEX` TTL.
* A JWT string is modelled as `Tok`: either a payload signed with a given
  secret and algorithm, or malformed garbage.  The external codec
  (`jose.jwt.encode` / `jose.jwt.decode`) is modelled by `encode` /
  `decode_token`: decode rejects a wrong secret or algorithm as
  `invalid` and a payload whose `exp` is at or past the current time as
  `expired`, per the codec contract the service relies on.
* A decoded JWT payload is a `Claims` record of optional fields, matching
  the Python `dict` access pattern (`payload.get(...)`).  A missing claim
  that the Python code reads unconditionally (`payload["sub"]`, or a field
  required by the pydantic `TokenPayload` model) would raise an unhandled
  exception there; this outcome is the `fault` error of `JwtErr`.
* `async` methods become pure functions threading `Store` explicitly; the
  fresh `uuid4()` of `_create_refresh_token` becomes an explicit `jti`
  argument.
-/

/-- Error kinds raised by the service (`src.exceptions`):
`invalid` = InvalidTokenException, `expired` = ExpiredTokenException,
`revoked` = RevokedTokenException; `fault` marks an unhandled Python
exception (e.g. `KeyError` on a missing `sub` claim or a pydantic
validation error), which is not one of the service's error kinds. -/
inductive JwtErr where
  | invalid
  | expired
  | revoked
  | fault
deriving DecidableEq, Repr

/-- Decoded JWT claim set, as the `dict` returned by `jose.jwt.decode`.
Every field is optional: the Python code reads claims with
`payload.get(...)`. -/
structure Claims where
  sub : Option Nat := none
  type : Option String := none
  version : Option Nat := none
  exp : Option Int := none
  iat : Option Int := none
  jti : Option Nat := none
  email : Option String := none
  is_staff : Option Bool := none
deriving DecidableEq, Repr

/-- A JWT string: either a claim set signed with a secret under an
algorithm, or a malformed token (bad structure / tampered signature). -/
inductive Tok where
  | signed (claims : Claims) (secret : Nat) (alg : Nat)
  | malformed
deriving DecidableEq, Repr

/-- The pydantic `TokenPayload` model of `src/core/jwt.py`: `sub`, `type`,
`version`, `exp`, `iat` are required; `jti`, `email`, `is_staff` default
to `None`. -/
structure TokenPayload where
  sub : Nat
  type : String
  version : Nat
  exp : Int
  iat : Int
  jti : Option Nat := none
  email : Option String := none
  is_staff : Option Bool := none
deriving DecidableEq, Repr

/-- `TokenPayload(**payload)`: pydantic validation succeeds iff the
required fields are present. -/
def mkTokenPayload (c : Claims) : Option TokenPayload :=
  match c.sub, c.type, c.version, c.exp, c.iat with
  | some s, some t, some v, some e, some i =>
      some { sub := s, type := t, version := v, exp := e, iat := i,
             jti := c.jti, email := c.email, is_staff := c.is_staff }
  | _, _, _, _, _ => none

/-- The `TokenPair` model: access and refresh token, returned together. -/
structure TokenPair where
  access : Tok
  refresh : Tok
deriving DecidableEq, Repr

/-- One active-refresh record (`SETEX jwt:refresh:<jti> ttl user_id`):
the stored value and the absolute instant at which the key's TTL ends. -/
structure RefreshRecord where
  user : Nat
  expires_at : Int
deriving DecidableEq, Repr

/-- The Redis state seen by `JWTService`, split along its two reserved
key prefixes. -/
@[ext]
structure Store where
  versions : Nat → Option Nat
  records : Nat → Option RefreshRecord

/-- `JWTService.__init__` configuration, from `settings.jwt`:
secret key, algorithm, and the access / refresh lifetimes in seconds. -/
structure Config where
  secret_key : Nat
  algorithm : Nat
  access_expiration : Int
  refresh_expiration : Int
deriving DecidableEq, Repr

/-- `JWTService._get_token_version`: `GET jwt:version:<uid>`, 0 when the
key is absent. -/
def get_token_version (st : Store) (uid : Nat) : Nat :=
  (st.versions uid).getD 0

/-- `JWTService._increment_token_version`: `INCR jwt:version:<uid>`
(atomic; an absent key increments to 1), returning the new store and the
new version. -/
def increment_token_version (st : Store) (uid : Nat) : Store × Nat :=
  let v := get_token_version st uid + 1
  ({ st with versions := fun u => if u = uid then some v else st.versions u }, v)

/-- `JWTService._store_refresh_token`: `SETEX jwt:refresh:<jti> ttl uid`
with `ttl = refresh_expiration` seconds, taken at instant `now`. -/
def store_refresh_token (st : Store) (jti uid : Nat) (now ttl : Int) : Store :=
  { st with records := fun j =>
      if j = jti then some { user := uid, expires_at := now + ttl } else st.records j }

/-- `JWTService._is_refresh_token_active`: `EXISTS jwt:refresh:<jti>`;
a key exists until its TTL has elapsed. -/
def is_refresh_token_active (st : Store) (jti : Nat) (now : Int) : Bool :=
  match st.records jti with
  | none => false
  | some r => now < r.expires_at

/-- `jose.jwt.encode(payload, secret, algorithm)`. -/
def encode (c : Claims) (secret alg : Nat) : Tok :=
  Tok.signed c secret alg

/-- `JWTService._decode_token` (around `jose.jwt.decode` with the
configured secret and algorithm): malformed tokens and wrong
secret/algorithm fail `invalid`; a present `exp` at or before `now`
fails `expired`; otherwise the claim set is returned. -/
def decode_token (cfg : Config) (tok : Tok) (now : Int) : Except JwtErr Claims :=
  match tok with
  | Tok.malformed => Except.error JwtErr.invalid
  | Tok.signed c s a =>
      if s = cfg.secret_key ∧ a = cfg.algorithm then
        match c.exp with
        | none => Except.ok c
        | some e => if e ≤ now then Except.error JwtErr.expired else Except.ok c
      else Except.error JwtErr.invalid

/-- `JWTService._create_access_token`: access-token payload with
`type="access"`, denormalized `email` / `is_staff`, lifetime
`access_expiration`. Pure (no store access). -/
def create_access_token (cfg : Config) (uid : Nat) (email : String)
    (is_staff : Bool) (version : Nat) (now : Int) : Tok :=
  encode
    { sub := some uid, email := some email, is_staff := some is_staff,
      version := some version, type := some "access",
      exp := some (now + cfg.access_expiration), iat := some now }
    cfg.secret_key cfg.algorithm

/-- `JWTService._create_refresh_token`: refresh-token payload with
`type="refresh"`, a fresh `jti` (the `uuid4()` is passed explicitly),
lifetime `refresh_expiration`; stores the active-refresh record. -/
def create_refresh_token (cfg : Config) (st : Store) (uid : Nat)
    (version : Nat) (now : Int) (jti : Nat) : Tok × Store :=
  let tok := encode
    { sub := some uid, version := some version, jti := some jti,
      type := some "refresh",
      exp := some (now + cfg.refresh_expiration), iat := some now }
    cfg.secret_key cfg.algorithm
  (tok, store_refresh_token st jti uid now cfg.refresh_expiration)

/-- `JWTService.create_token_pair`: read the current version (0 when
absent), build both tokens, persist the refresh record. -/
def create_token_pair (cfg : Config) (st : Store) (uid : Nat)
    (email : String) (is_staff : Bool) (now : Int) (jti : Nat) :
    TokenPair × Store :=
  let version := get_token_version st uid
  let access := create_access_token cfg uid email is_staff version now
  let rt := create_refresh_token cfg st uid version now jti
  ({ access := access, refresh := rt.1 }, rt.2)

/-- `JWTService.verify_access_token`: decode, reject `type != "access"`
as `invalid`, reject a version not matching the freshly read stored
version as `revoked`, then validate the payload model.  Reads only the
version partition of the store, never the refresh records. -/
def verify_access_token (cfg : Config) (st : Store) (tok : Tok)
    (now : Int) : Except JwtErr TokenPayload :=
  match decode_token cfg tok now with
  | Except.error e => Except.error e
  | Except.ok c =>
      if c.type ≠ some "access" then Except.error JwtErr.invalid
      else
        match c.sub with
        | none => Except.error JwtErr.fault
        | some uid =>
            if c.version.getD 0 ≠ get_token_version st uid then
              Except.error JwtErr.revoked
            else
              match mkTokenPayload c with
              | none => Except.error JwtErr.fault
              | some p => Except.ok p

/-- `JWTService.verify_refresh_token`: decode, reject `type != "refresh"`
as `invalid`, reject a version mismatch as `revoked`, reject a missing
`jti` claim or a missing active-refresh record as `revoked`, then
validate the payload model. -/
def verify_refresh_token (cfg : Config) (st : Store) (tok : Tok)
    (now : Int) : Except JwtErr TokenPayload :=
  match decode_token cfg tok now with
  | Except.error e => Except.error e
  | Except.ok c =>
      if c.type ≠ some "refresh" then Except.error JwtErr.invalid
      else
        match c.sub with
        | none => Except.error JwtErr.fault
        | some uid =>
            if c.version.getD 0 ≠ get_token_version st uid then
              Except.error JwtErr.revoked
            else
              match c.jti with
              | none => Except.error JwtErr.revoked
              | some j =>
                  if ¬ is_refresh_token_active st j now then
                    Except.error JwtErr.revoked
                  else
                    match mkTokenPayload c with
                    | none => Except.error JwtErr.fault
                    | some p => Except.ok p

/-- `JWTService.revoke_refresh_token`: `DELETE jwt:refresh:<jti>`
(deleting an absent key is a no-op, not an error). -/
def revoke_refresh_token (st : Store) (jti : Nat) : Store :=
  { st with records := fun j => if j = jti then none else st.records j }

/-- `JWTService.revoke_all_user_tokens`: increment the user's version
counter, invalidating every previously issued token. -/
def revoke_all_user_tokens (st : Store) (uid : Nat) : Store :=
  (increment_token_version st uid).1

/-- `JWTService.refresh_token_pair`: verify the refresh token, always
issue a fresh access token at the current version; rotate the refresh
token (revoke old record, new `jti`, new record) exactly when its
remaining lifetime is strictly below twice the access lifetime,
otherwise return the original refresh token and leave the store
unchanged. -/
def refresh_token_pair (cfg : Config) (st : Store) (tok : Tok)
    (email : String) (is_staff : Bool) (now : Int) (new_jti : Nat) :
    Except JwtErr (TokenPair × Store) :=
  match verify_refresh_token cfg st tok now with
  | Except.error e => Except.error e
  | Except.ok p =>
      let version := get_token_version st p.sub
      let access := create_access_token cfg p.sub email is_staff version now
      if p.exp - now < 2 * cfg.access_expiration then
        let st1 := match p.jti with
          | some j => revoke_refresh_token st j
          | none => st
        let rt := create_refresh_token cfg st1 p.sub version now new_jti
        Except.ok ({ access := access, refresh := rt.1 }, rt.2)
      else
        Except.ok ({ access := access, refresh := tok }, st)

/-- A user row as seen by the auth orchestrator's lookup
(`UserRepository.get_by_id`): `none` models `NotFoundException`. -/
structure User where
  email : String
  is_staff : Bool
  is_active : Bool
deriving DecidableEq, Repr

/-- Orchestrator-level error kinds: a token-service error, or
`AuthenticationException` (`auth_failed`). -/
inductive AuthErr where
  | token (e : JwtErr)
  | auth_failed
deriving DecidableEq, Repr

/-- `AuthService.refresh_tokens`: verify the refresh token, look the user
up by the token's subject (`NotFoundException` → `AuthenticationException`),
reject an inactive user with `AuthenticationException`, otherwise delegate
to `refresh_token_pair` with the looked-up email and staff flag. -/
def refresh_tokens (cfg : Config) (st : Store) (lookup : Nat → Option User)
    (tok : Tok) (now : Int) (new_jti : Nat) : Except AuthErr (TokenPair × Store) :=
  match verify_refresh_token cfg st tok now with
  | Except.error e => Except.error (AuthErr.token e)
  | Except.ok p =>
      match lookup p.sub with
      | none => Except.error AuthErr.auth_failed
      | some u =>
          if u.is_active then
            match refresh_token_pair cfg st tok u.email u.is_staff now new_jti with
            | Except.error e => Except.error (AuthErr.token e)
            | Except.ok r => Except.ok r
          else Except.error AuthErr.auth_failed

/-- Boolean expiry guard on a claim set: true when the embedded `exp`
(if any) is strictly in the future. -/
def not_expired (c : Claims) (now : Int) : Bool :=
  match c.exp with
  | none => true
  | some e => now < e

/-- The subject claim of a token, when it has one. -/
def tok_sub : Tok → Option Nat
  | Tok.signed c _ _ => c.sub
  | Tok.malformed => none

/-! ### Concrete instances used by the witness theorems -/

/-- A sample configuration: access tokens live 60 s, refresh tokens 3600 s. -/
def cfg0 : Config :=
  { secret_key := 1, algorithm := 2, access_expiration := 60, refresh_expiration := 3600 }

/-- The empty store (no version keys, no refresh records). -/
def st0 : Store := { versions := fun _ => none, records := fun _ => none }

/-- A store holding one active-refresh record for `jti = 5` (user 7). -/
def stA : Store :=
  { versions := fun _ => none,
    records := fun j => if j = 5 then some { user := 7, expires_at := 1000 } else none }

/-- A store holding active-refresh records for `jti = 4` and `jti = 5` (user 7). -/
def stB : Store :=
  { versions := fun _ => none,
    records := fun j =>
      if j = 5 ∨ j = 4 then some { user := 7, expires_at := 1000 } else none }

/-- A refresh token of user 7 with `jti = 5`, expiring at 500. -/
def rtokA : Tok :=
  Tok.signed
    { sub := some 7, type := some "refresh", version := some 0,
      exp := some 500, iat := some 0, jti := some 5 } 1 2

/-- The payload of `rtokA`. -/
def payA : TokenPayload :=
  { sub := 7, type := "refresh", version := 0, exp := 500, iat := 0, jti := some 5 }

/-- Access-token claims for user 7. -/
def caW : Claims :=
  { sub := some 7, type := some "access", version := some 0,
    exp := some 160, iat := some 100, email := some "a", is_staff := some false }

/-- Refresh-token claims for user 7 with `jti = 5`. -/
def crW : Claims :=
  { sub := some 7, type := some "refresh", version := some 0,
    exp := some 3700, iat := some 100, jti := some 5 }

/-- Refresh-token claims for user 7 with `jti = 4`. -/
def cB : Claims :=
  { sub := some 7, type := some "refresh", version := some 0,
    exp := some 500, iat := some 0, jti := some 4 }

/-- Refresh-token claims for user 7 carrying no `jti` claim at all. -/
def cNoJti : Claims :=
  { sub := some 7, type := some "refresh", version := some 0,
    exp := some 500, iat := some 0 }

/-- A user-lookup collaborator knowing only the active user 7. -/
def lookupW : Nat -> Option User :=
  fun u => if u = 7 then some { email := "x", is_staff := false, is_active := true } else none

/-! ### Helper lemmas -/

theorem decode_token_signed_self (cfg : Config) (c : Claims) (now : Int)
    (h : not_expired c now = true) :
    decode_token cfg (Tok.signed c cfg.secret_key cfg.algorithm) now = Except.ok c := by
  unfold decode_token
  unfold not_expired at h
  cases he : c.exp with
  | none => simp [he]
  | some e =>
      rw [he] at h
      simp only [decide_eq_true_eq] at h
      simp [he]
      omega

theorem mkTokenPayload_some_iff (c : Claims) (p : TokenPayload) :
    mkTokenPayload c = some p ↔
      c.sub = some p.sub ∧ c.type = some p.type ∧ c.version = some p.version ∧
      c.exp = some p.exp ∧ c.iat = some p.iat ∧ c.jti = p.jti ∧
      c.email = p.email ∧ c.is_staff = p.is_staff := by
  obtain ⟨s, t, v, e, i, j, em, sf⟩ := c
  obtain ⟨ps, pt, pv, pe, pi, pj, pem, psf⟩ := p
  cases s <;> cases t <;> cases v <;> cases e <;> cases i <;>
    simp [mkTokenPayload]

theorem verify_access_token_signed (cfg : Config) (st : Store) (c : Claims)
    (now : Int) (uid : Nat)
    (hexp : not_expired c now = true) (hty : c.type = some "access")
    (hsub : c.sub = some uid) :
    verify_access_token cfg st (Tok.signed c cfg.secret_key cfg.algorithm) now =
      (if c.version.getD 0 ≠ get_token_version st uid then
        Except.error JwtErr.revoked
      else
        match mkTokenPayload c with
        | none => Except.error JwtErr.fault
        | some p => Except.ok p) := by
  unfold verify_access_token
  rw [decode_token_signed_self cfg c now hexp]
  simp [hty, hsub]

theorem verify_refresh_token_signed (cfg : Config) (st : Store) (c : Claims)
    (now : Int) (uid : Nat)
    (hexp : not_expired c now = true) (hty : c.type = some "refresh")
    (hsub : c.sub = some uid) :
    verify_refresh_token cfg st (Tok.signed c cfg.secret_key cfg.algorithm) now =
      (if c.version.getD 0 ≠ get_token_version st uid then
        Except.error JwtErr.revoked
      else
        match c.jti with
        | none => Except.error JwtErr.revoked
        | some j =>
            if ¬ is_refresh_token_active st j now then Except.error JwtErr.revoked
            else
              match mkTokenPayload c with
              | none => Except.error JwtErr.fault
              | some p => Except.ok p) := by
  unfold verify_refresh_token
  rw [decode_token_signed_self cfg c now hexp]
  simp [hty, hsub]

theorem get_token_version_store_refresh (st : Store) (j u : Nat) (now ttl : Int)
    (uid : Nat) :
    get_token_version (store_refresh_token st j u now ttl) uid = get_token_version st uid := rfl

theorem get_token_version_revoke_refresh (st : Store) (j uid : Nat) :
    get_token_version (revoke_refresh_token st j) uid = get_token_version st uid := rfl

theorem get_token_version_revoke_all_self (st : Store) (uid : Nat) :
    get_token_version (revoke_all_user_tokens st uid) uid = get_token_version st uid + 1 := by
  simp [revoke_all_user_tokens, increment_token_version, get_token_version]

theorem decode_token_ok_inv (cfg : Config) (tok : Tok) (now : Int) (c : Claims)
    (h : decode_token cfg tok now = Except.ok c) :
    tok = Tok.signed c cfg.secret_key cfg.algorithm ∧ not_expired c now = true := by
  cases tok with
  | malformed => simp [decode_token] at h
  | signed c2 s a =>
      simp only [decode_token] at h
      by_cases hsa : s = cfg.secret_key ∧ a = cfg.algorithm
      · rw [if_pos hsa] at h
        obtain ⟨hs, ha⟩ := hsa
        subst hs; subst ha
        cases he : c2.exp with
        | none =>
            simp only [he] at h
            cases h
            exact ⟨rfl, by simp [not_expired, he]⟩
        | some e =>
            simp only [he] at h
            by_cases hle : e ≤ now
            · rw [if_pos hle] at h; cases h
            · rw [if_neg hle] at h
              cases h
              refine ⟨rfl, ?_⟩
              simp only [not_expired, he, decide_eq_true_eq]
              omega
      · rw [if_neg hsa] at h; cases h

theorem is_refresh_token_active_congr (st st2 : Store) (j : Nat) (now : Int)
    (h : st2.records j = st.records j) :
    is_refresh_token_active st2 j now = is_refresh_token_active st j now := by
  unfold is_refresh_token_active
  rw [h]

theorem decode_token_wrong_key (cfg : Config) (c : Claims) (s a : Nat)
    (now : Int) (hsa : ¬(s = cfg.secret_key ∧ a = cfg.algorithm)) :
    decode_token cfg (Tok.signed c s a) now = Except.error JwtErr.invalid := by
  simp only [decode_token]
  rw [if_neg hsa]

theorem decode_token_expired (cfg : Config) (c : Claims) (now e : Int)
    (he : c.exp = some e) (hle : e ≤ now) :
    decode_token cfg (Tok.signed c cfg.secret_key cfg.algorithm) now =
      Except.error JwtErr.expired := by
  simp only [decode_token]
  rw [if_pos ⟨trivial, trivial⟩]
  simp only [he]
  rw [if_pos hle]

theorem verify_refresh_token_signed_raw (cfg : Config) (st : Store) (c : Claims)
    (now : Int) (hexp : not_expired c now = true) :
    verify_refresh_token cfg st (Tok.signed c cfg.secret_key cfg.algorithm) now =
      (if c.type ≠ some "refresh" then Except.error JwtErr.invalid
      else
        match c.sub with
        | none => Except.error JwtErr.fault
        | some uid =>
            if c.version.getD 0 ≠ get_token_version st uid then
              Except.error JwtErr.revoked
            else
              match c.jti with
              | none => Except.error JwtErr.revoked
              | some j =>
                  if ¬ is_refresh_token_active st j now then
                    Except.error JwtErr.revoked
                  else
                    match mkTokenPayload c with
                    | none => Except.error JwtErr.fault
                    | some p => Except.ok p) := by
  unfold verify_refresh_token
  rw [decode_token_signed_self cfg c now hexp]

theorem verify_refresh_token_ok_inv (cfg : Config) (st : Store) (tok : Tok)
    (now : Int) (p : TokenPayload)
    (h : verify_refresh_token cfg st tok now = Except.ok p) :
    tok = Tok.signed
        { sub := some p.sub, type := some "refresh", version := some p.version,
          exp := some p.exp, iat := some p.iat, jti := p.jti,
          email := p.email, is_staff := p.is_staff }
        cfg.secret_key cfg.algorithm ∧
      p.type = "refresh" ∧ now < p.exp ∧
      p.version = get_token_version st p.sub ∧
      ∃ j, p.jti = some j ∧ is_refresh_token_active st j now = true := by
  cases tok with
  | malformed => simp [verify_refresh_token, decode_token] at h
  | signed c s a =>
      by_cases hsa : s = cfg.secret_key ∧ a = cfg.algorithm
      case neg =>
        have hinv : verify_refresh_token cfg st (Tok.signed c s a) now =
            Except.error JwtErr.invalid := by
          unfold verify_refresh_token
          rw [decode_token_wrong_key cfg c s a now hsa]
        rw [hinv] at h; cases h
      case pos =>
        obtain ⟨hs, ha⟩ := hsa
        subst hs; subst ha
        by_cases hexp : not_expired c now = true
        case neg =>
          have hde : ∃ e, c.exp = some e ∧ e ≤ now := by
            unfold not_expired at hexp
            cases he : c.exp with
            | none => rw [he] at hexp; simp at hexp
            | some e =>
                rw [he] at hexp
                simp only [decide_eq_true_eq] at hexp
                exact ⟨e, rfl, by omega⟩
          obtain ⟨e, he, hle⟩ := hde
          have hexpd : verify_refresh_token cfg st
              (Tok.signed c cfg.secret_key cfg.algorithm) now =
              Except.error JwtErr.expired := by
            unfold verify_refresh_token
            rw [decode_token_expired cfg c now e he hle]
          rw [hexpd] at h; cases h
        case pos =>
          rw [verify_refresh_token_signed_raw cfg st c now hexp] at h
          by_cases hty : c.type = some "refresh"
          case neg => rw [if_pos hty] at h; cases h
          case pos =>
            rw [if_neg (not_not_intro hty)] at h
            cases hsub : c.sub with
            | none => simp only [hsub] at h; cases h
            | some uid =>
                simp only [hsub] at h
                by_cases hver : c.version.getD 0 = get_token_version st uid
                case neg => rw [if_pos hver] at h; cases h
                case pos =>
                  rw [if_neg (not_not_intro hver)] at h
                  cases hjti : c.jti with
                  | none => simp only [hjti] at h; cases h
                  | some j =>
                      simp only [hjti] at h
                      by_cases hact : is_refresh_token_active st j now = true
                      case neg => rw [if_pos hact] at h; cases h
                      case pos =>
                        rw [if_neg (not_not_intro hact)] at h
                        cases hmk : mkTokenPayload c with
                        | none => simp only [hmk] at h; cases h
                        | some p2 =>
                            simp only [hmk] at h
                            cases h
                            rw [mkTokenPayload_some_iff] at hmk
                            obtain ⟨m1, m2, m3, m4, m5, m6, m7, m8⟩ := hmk
                            rw [m1] at hsub
                            cases hsub
                            rw [m3] at hver
                            simp only [Option.getD_some] at hver
                            have hpty : p.type = "refresh" := by
                              rw [m2] at hty
                              exact Option.some.inj hty
                            refine ⟨?_, hpty, ?_, hver, j, ?_, hact⟩
                            · congr 1
                              obtain ⟨cs, ct, cv, ce, ci, cj, cem, csf⟩ := c
                              simp only at m1 m2 m3 m4 m5 m6 m7 m8 ⊢
                              rw [m1, m2, m3, m4, m5, m6, m7, m8, hpty]
                            · have hne : not_expired c now = true := hexp
                              unfold not_expired at hne
                              rw [m4] at hne
                              simpa using hne
                            · rw [hjti] at m6
                              exact m6.symm

theorem verify_refresh_token_ok_frame (cfg : Config) (st st2 : Store)
    (tok : Tok) (now : Int) (p : TokenPayload)
    (hv : verify_refresh_token cfg st tok now = Except.ok p)
    (hver : get_token_version st2 p.sub = get_token_version st p.sub)
    (hrec : ∀ j, p.jti = some j → st2.records j = st.records j) :
    verify_refresh_token cfg st2 tok now = Except.ok p := by
  obtain ⟨htok, hpty, hlt, hpver, j, hpj, hact⟩ :=
    verify_refresh_token_ok_inv cfg st tok now p hv
  subst htok
  rw [verify_refresh_token_signed cfg st2 _ now p.sub
    (by simp [not_expired]; omega) rfl rfl]
  rw [if_neg (by rw [hver, ← hpver]; simp)]
  simp only [hpj]
  rw [is_refresh_token_active_congr st st2 j now (hrec j hpj), hact]
  have hmk : mkTokenPayload
      { sub := some p.sub, type := some "refresh", version := some p.version,
        exp := some p.exp, iat := some p.iat, jti := some j,
        email := p.email, is_staff := p.is_staff } = some p := by
    rw [mkTokenPayload_some_iff]
    refine ⟨rfl, ?_, rfl, rfl, rfl, hpj.symm, rfl, rfl⟩
    rw [hpty]
  simp only [not_true_eq_false, if_false, hmk]

theorem not_expired_false_inv (c : Claims) (now : Int)
    (h : ¬ not_expired c now = true) :
    ∃ e, c.exp = some e ∧ e ≤ now := by
  unfold not_expired at h
  cases he : c.exp with
  | none => rw [he] at h; simp at h
  | some e =>
      rw [he] at h
      simp only [decide_eq_true_eq] at h
      exact ⟨e, rfl, by omega⟩

theorem verify_access_token_signed_raw (cfg : Config) (st : Store) (c : Claims)
    (now : Int) (hexp : not_expired c now = true) :
    verify_access_token cfg st (Tok.signed c cfg.secret_key cfg.algorithm) now =
      (if c.type ≠ some "access" then Except.error JwtErr.invalid
      else
        match c.sub with
        | none => Except.error JwtErr.fault
        | some uid =>
            if c.version.getD 0 ≠ get_token_version st uid then
              Except.error JwtErr.revoked
            else
              match mkTokenPayload c with
              | none => Except.error JwtErr.fault
              | some p => Except.ok p) := by
  unfold verify_access_token
  rw [decode_token_signed_self cfg c now hexp]

/-! ### Claim theorems -/

/-- Claim C6: codec round-trip — decoding the encoding of any payload with
the same secret and algorithm, at a time strictly before the payload's
`exp`, returns the payload unchanged in every field. -/
theorem codec_round_trip (cfg : Config) (c : Claims) (now e : Int)
    (hexp : c.exp = some e) (hlt : now < e) :
    decode_token cfg (encode c cfg.secret_key cfg.algorithm) now = Except.ok c := by
  simp only [encode, decode_token]
  rw [if_pos ⟨trivial, trivial⟩]
  simp only [hexp]
  rw [if_neg (by omega)]

/-- Claim C6 witness: a concrete round-trip before expiry. -/
theorem codec_round_trip_witness :
    decode_token cfg0 (encode crW cfg0.secret_key cfg0.algorithm) 100 = Except.ok crW :=
  codec_round_trip cfg0 crW 100 3700 rfl (by decide)

/-- Claim C10: a well-signed, unexpired token of type `refresh` whose
version matches the stored version but which carries no `jti` claim fails
`verify_refresh_token` with `RevokedToken`, not `InvalidToken`. -/
theorem missing_jti_revoked (cfg : Config) (st : Store) (now : Int)
    (c : Claims) (uid : Nat)
    (hty : c.type = some "refresh") (hsub : c.sub = some uid)
    (hver : c.version.getD 0 = get_token_version st uid)
    (hjti : c.jti = none) (hexp : not_expired c now = true) :
    verify_refresh_token cfg st (Tok.signed c cfg.secret_key cfg.algorithm) now =
      Except.error JwtErr.revoked := by
  rw [verify_refresh_token_signed cfg st c now uid hexp hty hsub]
  rw [if_neg (not_not_intro hver)]
  simp only [hjti]

/-- Claim C10 witness: a concrete refresh token without a `jti` claim. -/
theorem missing_jti_revoked_witness :
    verify_refresh_token cfg0 st0 (Tok.signed cNoJti cfg0.secret_key cfg0.algorithm) 100 =
      Except.error JwtErr.revoked :=
  missing_jti_revoked cfg0 st0 100 cNoJti 7 rfl rfl (by decide) rfl (by decide)

/-- Claim C5: a well-signed, unexpired access token given to
`verify_refresh_token` (and a refresh token given to
`verify_access_token`) fails with `InvalidToken`, regardless of the store
state — never `RevokedToken`, never silent success. -/
theorem cross_use_rejected (cfg : Config) (st1 st2 : Store) (now : Int)
    (ca cr : Claims)
    (hat : ca.type = some "access") (hae : not_expired ca now = true)
    (hrt : cr.type = some "refresh") (hre : not_expired cr now = true) :
    verify_refresh_token cfg st1 (Tok.signed ca cfg.secret_key cfg.algorithm) now =
      Except.error JwtErr.invalid ∧
    verify_access_token cfg st2 (Tok.signed cr cfg.secret_key cfg.algorithm) now =
      Except.error JwtErr.invalid := by
  constructor
  · rw [verify_refresh_token_signed_raw cfg st1 ca now hae]
    rw [if_pos (by rw [hat]; decide)]
  · rw [verify_access_token_signed_raw cfg st2 cr now hre]
    rw [if_pos (by rw [hrt]; decide)]

/-- Claim C5 witness: concrete cross-use of access and refresh tokens. -/
theorem cross_use_rejected_witness :
    verify_refresh_token cfg0 st0 (Tok.signed caW cfg0.secret_key cfg0.algorithm) 100 =
      Except.error JwtErr.invalid ∧
    verify_access_token cfg0 st0 (Tok.signed crW cfg0.secret_key cfg0.algorithm) 100 =
      Except.error JwtErr.invalid :=
  cross_use_rejected cfg0 st0 st0 100 caW crW rfl (by decide) rfl (by decide)

/-- Claim C8: `revoke_refresh_token` is idempotent and touches nothing but
the record of the given `jti`: deleting twice equals deleting once, the
version partition is unchanged, only the given key is cleared, and
deleting an absent key is a no-op. -/
theorem revoke_refresh_idempotent (st : Store) (j : Nat) :
    revoke_refresh_token (revoke_refresh_token st j) j = revoke_refresh_token st j ∧
    (revoke_refresh_token st j).versions = st.versions ∧
    (revoke_refresh_token st j).records j = none ∧
    (∀ j2, j2 ≠ j → (revoke_refresh_token st j).records j2 = st.records j2) ∧
    (st.records j = none → revoke_refresh_token st j = st) := by
  refine ⟨?_, rfl, by simp [revoke_refresh_token], ?_, ?_⟩
  · apply Store.ext
    · rfl
    · funext j2
      by_cases h : j2 = j <;> simp [revoke_refresh_token, h]
  · intro j2 h2
    simp [revoke_refresh_token, h2]
  · intro hnone
    apply Store.ext
    · rfl
    · funext j2
      by_cases h : j2 = j
      · subst h; simp [revoke_refresh_token, hnone]
      · simp [revoke_refresh_token, h]

/-- Claim C8 witness: concrete idempotent deletion at `jti = 5`. -/
theorem revoke_refresh_idempotent_witness :
    revoke_refresh_token (revoke_refresh_token stA 5) 5 = revoke_refresh_token stA 5 ∧
    (revoke_refresh_token stA 5).versions = stA.versions ∧
    (revoke_refresh_token stA 5).records 5 = none ∧
    (∀ j2, j2 ≠ 5 → (revoke_refresh_token stA 5).records j2 = stA.records j2) ∧
    (stA.records 5 = none → revoke_refresh_token stA 5 = stA) :=
  revoke_refresh_idempotent stA 5

/-- Claim C9: `verify_access_token` never consults the refresh-record
partition — its outcome depends only on the token and the stored version
counter for the token's subject (and, being a read, it writes nothing). -/
theorem verify_access_no_refresh_read (cfg : Config) (tok : Tok) (now : Int)
    (st st2 : Store)
    (h : ∀ u, tok_sub tok = some u → get_token_version st u = get_token_version st2 u) :
    verify_access_token cfg st tok now = verify_access_token cfg st2 tok now := by
  cases tok with
  | malformed => rfl
  | signed c s a =>
      by_cases hsa : s = cfg.secret_key ∧ a = cfg.algorithm
      case neg =>
        unfold verify_access_token
        rw [decode_token_wrong_key cfg c s a now hsa]
      case pos =>
        obtain ⟨hs, ha⟩ := hsa
        subst hs; subst ha
        by_cases hexp : not_expired c now = true
        case neg =>
          obtain ⟨e, he, hle⟩ := not_expired_false_inv c now hexp
          unfold verify_access_token
          rw [decode_token_expired cfg c now e he hle]
        case pos =>
          rw [verify_access_token_signed_raw cfg st c now hexp,
              verify_access_token_signed_raw cfg st2 c now hexp]
          cases hsub : c.sub with
          | none => simp only [hsub]
          | some uid =>
              simp only [hsub]
              rw [h uid (by simp [tok_sub, hsub])]

/-- Claim C9 witness: the same access token verifies identically in a
store with refresh records and in the empty store. -/
theorem verify_access_no_refresh_read_witness :
    verify_access_token cfg0 stA (Tok.signed caW cfg0.secret_key cfg0.algorithm) 100 =
      verify_access_token cfg0 st0 (Tok.signed caW cfg0.secret_key cfg0.algorithm) 100 :=
  verify_access_no_refresh_read cfg0 (Tok.signed caW cfg0.secret_key cfg0.algorithm)
    100 stA st0 (fun _ _ => rfl)

/-- Claim C1: after `revoke_all_user_tokens(S)`, every access and refresh
token previously issued to S (its embedded version is at most the stored
version at the time of the call) fails verification with `RevokedToken`,
even though unexpired and even if its active-refresh record still exists
in the store. -/
theorem revoke_all_invalidates (cfg : Config) (st : Store) (s : Nat) (now : Int)
    (ca cr : Claims)
    (hca_sub : ca.sub = some s) (hca_ty : ca.type = some "access")
    (hca_v : ca.version.getD 0 ≤ get_token_version st s)
    (hca_e : not_expired ca now = true)
    (hcr_sub : cr.sub = some s) (hcr_ty : cr.type = some "refresh")
    (hcr_v : cr.version.getD 0 ≤ get_token_version st s)
    (hcr_e : not_expired cr now = true) :
    verify_access_token cfg (revoke_all_user_tokens st s)
        (Tok.signed ca cfg.secret_key cfg.algorithm) now =
      Except.error JwtErr.revoked ∧
    verify_refresh_token cfg (revoke_all_user_tokens st s)
        (Tok.signed cr cfg.secret_key cfg.algorithm) now =
      Except.error JwtErr.revoked := by
  constructor
  · rw [verify_access_token_signed cfg _ ca now s hca_e hca_ty hca_sub]
    rw [if_pos (by rw [get_token_version_revoke_all_self]; omega)]
  · rw [verify_refresh_token_signed cfg _ cr now s hcr_e hcr_ty hcr_sub]
    rw [if_pos (by rw [get_token_version_revoke_all_self]; omega)]

/-- Claim C1 witness: revoking all tokens of user 7 invalidates concrete
unexpired access and refresh tokens; the refresh record of `crW` is still
present in `stA`. -/
theorem revoke_all_invalidates_witness :
    verify_access_token cfg0 (revoke_all_user_tokens stA 7)
        (Tok.signed caW cfg0.secret_key cfg0.algorithm) 100 =
      Except.error JwtErr.revoked ∧
    verify_refresh_token cfg0 (revoke_all_user_tokens stA 7)
        (Tok.signed crW cfg0.secret_key cfg0.algorithm) 100 =
      Except.error JwtErr.revoked :=
  revoke_all_invalidates cfg0 stA 7 100 caW crW rfl rfl (by decide) (by decide)
    rfl rfl (by decide) (by decide)

/-- Claim C3: for any prior store state, a freshly created pair verifies
immediately: both `verify_access_token` on the pair's access token and
`verify_refresh_token` on its refresh token succeed (also on the first
call, when no version key exists, and after any number of revocations,
since the pair embeds the currently stored version). -/
theorem create_pair_verifies (cfg : Config) (st : Store) (uid : Nat)
    (email : String) (sf : Bool) (now : Int) (jti : Nat)
    (ha : 0 < cfg.access_expiration) (hr : 0 < cfg.refresh_expiration) :
    ∃ pa pr,
      verify_access_token cfg (create_token_pair cfg st uid email sf now jti).2
        (create_token_pair cfg st uid email sf now jti).1.access now = Except.ok pa ∧
      verify_refresh_token cfg (create_token_pair cfg st uid email sf now jti).2
        (create_token_pair cfg st uid email sf now jti).1.refresh now = Except.ok pr := by
  refine ⟨{ sub := uid, type := "access", version := get_token_version st uid,
            exp := now + cfg.access_expiration, iat := now, jti := none,
            email := some email, is_staff := some sf },
          { sub := uid, type := "refresh", version := get_token_version st uid,
            exp := now + cfg.refresh_expiration, iat := now, jti := some jti,
            email := none, is_staff := none }, ?_, ?_⟩
  · simp only [create_token_pair, create_refresh_token, create_access_token, encode]
    rw [verify_access_token_signed cfg _ _ now uid
      (by simp [not_expired]; omega) rfl rfl]
    rw [get_token_version_store_refresh]
    rw [if_neg (by simp)]
    simp [mkTokenPayload]
  · simp only [create_token_pair, create_refresh_token, create_access_token, encode]
    rw [verify_refresh_token_signed cfg _ _ now uid
      (by simp [not_expired]; omega) rfl rfl]
    rw [get_token_version_store_refresh]
    rw [if_neg (by simp)]
    have hact : is_refresh_token_active
        (store_refresh_token st jti uid now cfg.refresh_expiration) jti now = true := by
      simp [is_refresh_token_active, store_refresh_token]
      omega
    simp only [hact]
    simp [mkTokenPayload]

/-- Claim C3 witness: a pair created for user 9 in the empty store
verifies immediately. -/
theorem create_pair_verifies_witness :
    ∃ pa pr,
      verify_access_token cfg0 (create_token_pair cfg0 st0 9 "a" true 100 11).2
        (create_token_pair cfg0 st0 9 "a" true 100 11).1.access 100 = Except.ok pa ∧
      verify_refresh_token cfg0 (create_token_pair cfg0 st0 9 "a" true 100 11).2
        (create_token_pair cfg0 st0 9 "a" true 100 11).1.refresh 100 = Except.ok pr :=
  create_pair_verifies cfg0 st0 9 "a" true 100 11 (by decide) (by decide)

/-- Claim C4: after `revoke_refresh_token(j1)`, the refresh token carrying
`jti = j1` fails with `RevokedToken`, while any other refresh token of the
same subject whose record and version still stand continues to verify with
the same payload — single-token revocation affects exactly one token. -/
theorem revoke_single_exact (cfg : Config) (st : Store) (now : Int)
    (j1 : Nat) (c : Claims) (uid : Nat) (tok2 : Tok) (p2 : TokenPayload) (j2 : Nat)
    (hty : c.type = some "refresh") (hsub : c.sub = some uid)
    (hjti : c.jti = some j1) (hexp : not_expired c now = true)
    (hv2 : verify_refresh_token cfg st tok2 now = Except.ok p2)
    (hj2 : p2.jti = some j2) (hne : j2 ≠ j1) :
    verify_refresh_token cfg (revoke_refresh_token st j1)
        (Tok.signed c cfg.secret_key cfg.algorithm) now =
      Except.error JwtErr.revoked ∧
    verify_refresh_token cfg (revoke_refresh_token st j1) tok2 now = Except.ok p2 := by
  constructor
  · rw [verify_refresh_token_signed cfg _ c now uid hexp hty hsub]
    by_cases hv : c.version.getD 0 = get_token_version (revoke_refresh_token st j1) uid
    · rw [if_neg (not_not_intro hv)]
      simp only [hjti]
      have hdead : is_refresh_token_active (revoke_refresh_token st j1) j1 now = false := by
        simp [is_refresh_token_active, revoke_refresh_token]
      rw [hdead]
      simp
    · rw [if_pos hv]
  · apply verify_refresh_token_ok_frame cfg st _ tok2 now p2 hv2
    · rw [get_token_version_revoke_refresh]
    · intro j hj
      rw [hj2] at hj
      cases hj
      simp [revoke_refresh_token, hne]

/-- Claim C4 witness: revoking `jti = 4` kills that token and leaves the
token with `jti = 5` verifying with the same payload. -/
theorem revoke_single_exact_witness :
    verify_refresh_token cfg0 (revoke_refresh_token stB 4)
        (Tok.signed cB cfg0.secret_key cfg0.algorithm) 100 =
      Except.error JwtErr.revoked ∧
    verify_refresh_token cfg0 (revoke_refresh_token stB 4) rtokA 100 = Except.ok payA :=
  revoke_single_exact cfg0 stB 100 4 cB 7 rtokA payA 5 rfl rfl rfl (by decide)
    (by rfl) rfl (by decide)

/-- Claim C2: for a valid, unrevoked refresh token, `refresh_token_pair`
returns the original refresh token (and leaves the store unchanged) when
the remaining lifetime is at least twice the access lifetime; when it is
strictly below that threshold it returns a different refresh token (fresh
`jti`, fresh record) and afterwards the old token no longer verifies. -/
theorem refresh_rotation_policy (cfg : Config) (st : Store) (tok : Tok)
    (email : String) (sf : Bool) (now : Int) (new_jti : Nat) (p : TokenPayload)
    (hv : verify_refresh_token cfg st tok now = Except.ok p)
    (hfresh : p.jti ≠ some new_jti) :
    (2 * cfg.access_expiration ≤ p.exp - now →
      refresh_token_pair cfg st tok email sf now new_jti =
        Except.ok
          ({ access := create_access_token cfg p.sub email sf
                (get_token_version st p.sub) now,
             refresh := tok }, st)) ∧
    (p.exp - now < 2 * cfg.access_expiration →
      ∃ r, refresh_token_pair cfg st tok email sf now new_jti = Except.ok r ∧
        r.1.refresh ≠ tok ∧
        verify_refresh_token cfg r.2 tok now = Except.error JwtErr.revoked) := by
  obtain ⟨htok, hpty, hlt, hpver, j, hpj, hact⟩ :=
    verify_refresh_token_ok_inv cfg st tok now p hv
  constructor
  · intro hrem
    simp only [refresh_token_pair, hv]
    rw [if_neg (by omega)]
  · intro hrem
    have hjne : j ≠ new_jti := by
      intro hh
      rw [hh] at hpj
      exact hfresh hpj
    refine ⟨({ access := create_access_token cfg p.sub email sf
                 (get_token_version st p.sub) now,
               refresh := (create_refresh_token cfg (revoke_refresh_token st j)
                 p.sub (get_token_version st p.sub) now new_jti).1 },
             (create_refresh_token cfg (revoke_refresh_token st j)
               p.sub (get_token_version st p.sub) now new_jti).2), ?_, ?_, ?_⟩
    · simp only [refresh_token_pair, hv, hpj]
      rw [if_pos hrem]
    · subst htok
      simp only [create_refresh_token, encode]
      intro hEq
      injection hEq with h1 h2 h3
      have hj := congrArg Claims.jti h1
      simp only at hj
      exact hfresh hj.symm
    · subst htok
      simp only [create_refresh_token, encode]
      rw [verify_refresh_token_signed cfg _ _ now p.sub
        (by simp [not_expired]; omega) rfl rfl]
      rw [if_neg (by
        rw [get_token_version_store_refresh, get_token_version_revoke_refresh,
          ← hpver]
        simp)]
      simp only [hpj]
      have hdead : is_refresh_token_active
          (store_refresh_token (revoke_refresh_token st j) new_jti p.sub now
            cfg.refresh_expiration) j now = false := by
        simp [is_refresh_token_active, store_refresh_token,
          revoke_refresh_token, hjne]
      rw [hdead]
      simp

/-- Claim C2 witness: at `now = 450` the remaining lifetime of `rtokA`
(50 s) is below twice the access lifetime (120 s), so the rotation branch
of the policy applies. -/
theorem refresh_rotation_policy_witness :
    (2 * cfg0.access_expiration ≤ payA.exp - 450 →
      refresh_token_pair cfg0 stA rtokA "e" false 450 6 =
        Except.ok
          ({ access := create_access_token cfg0 payA.sub "e" false
                (get_token_version stA payA.sub) 450,
             refresh := rtokA }, stA)) ∧
    (payA.exp - 450 < 2 * cfg0.access_expiration →
      ∃ r, refresh_token_pair cfg0 stA rtokA "e" false 450 6 = Except.ok r ∧
        r.1.refresh ≠ rtokA ∧
        verify_refresh_token cfg0 r.2 rtokA 450 = Except.error JwtErr.revoked) :=
  refresh_rotation_policy cfg0 stA rtokA "e" false 450 6 payA (by rfl) (by decide)

/-- Claim C7: for a refresh token that passes Token Service verification,
the orchestrator's `refresh_tokens` fails with `AuthenticationFailed`
exactly when the user lookup reports not-found or an inactive user, and
otherwise returns the pair produced by `refresh_token_pair` with the
looked-up email and staff flag. -/
theorem refresh_tokens_auth (cfg : Config) (st : Store) (lookup : Nat → Option User)
    (tok : Tok) (now : Int) (new_jti : Nat) (p : TokenPayload)
    (hv : verify_refresh_token cfg st tok now = Except.ok p) :
    (refresh_tokens cfg st lookup tok now new_jti =
      match lookup p.sub with
      | none => Except.error AuthErr.auth_failed
      | some u =>
          if u.is_active then
            match refresh_token_pair cfg st tok u.email u.is_staff now new_jti with
            | Except.error e => Except.error (AuthErr.token e)
            | Except.ok r => Except.ok r
          else Except.error AuthErr.auth_failed) ∧
    (∀ u, lookup p.sub = some u → u.is_active = true →
      ∃ r, refresh_tokens cfg st lookup tok now new_jti = Except.ok r ∧
        refresh_token_pair cfg st tok u.email u.is_staff now new_jti = Except.ok r) := by
  have hchar : refresh_tokens cfg st lookup tok now new_jti =
      match lookup p.sub with
      | none => Except.error AuthErr.auth_failed
      | some u =>
          if u.is_active then
            match refresh_token_pair cfg st tok u.email u.is_staff now new_jti with
            | Except.error e => Except.error (AuthErr.token e)
            | Except.ok r => Except.ok r
          else Except.error AuthErr.auth_failed := by
    simp only [refresh_tokens, hv]
  refine ⟨hchar, ?_⟩
  intro u hu hact
  have hok : ∃ r, refresh_token_pair cfg st tok u.email u.is_staff now new_jti =
      Except.ok r := by
    by_cases hc : p.exp - now < 2 * cfg.access_expiration
    · exact ⟨_, by simp only [refresh_token_pair, hv]; rw [if_pos hc]⟩
    · exact ⟨_, by simp only [refresh_token_pair, hv]; rw [if_neg hc]⟩
  obtain ⟨r, hr⟩ := hok
  refine ⟨r, ?_, hr⟩
  rw [hchar, hu]
  simp [hact, hr]

/-- Claim C7 witness: a concrete lookup knowing the active user 7 yields
the `refresh_token_pair` result through the orchestrator. -/
theorem refresh_tokens_auth_witness :
    (refresh_tokens cfg0 stA lookupW rtokA 100 6 =
      match lookupW payA.sub with
      | none => Except.error AuthErr.auth_failed
      | some u =>
          if u.is_active then
            match refresh_token_pair cfg0 stA rtokA u.email u.is_staff 100 6 with
            | Except.error e => Except.error (AuthErr.token e)
            | Except.ok r => Except.ok r
          else Except.error AuthErr.auth_failed) ∧
    (∀ u, lookupW payA.sub = some u → u.is_active = true →
      ∃ r, refresh_tokens cfg0 stA lookupW rtokA 100 6 = Except.ok r ∧
        refresh_token_pair cfg0 stA rtokA u.email u.is_staff 100 6 = Except.ok r) :=
  refresh_tokens_auth cfg0 stA lookupW rtokA 100 6 payA (by rfl)
